import Mathlib

/-!
Verification development for the simu-solaire estimation pipeline.

Shallow embedding of the core modules:
- modules/weather (get_weather_data, generate_mock_weather, fetch_pvgis_direct)
- modules/economics/roi_calculator.py (analyze and its helpers)
- modules/pv_production (caching.py, pvlib_wrapper.py)
- modules/consumption/appliances_models.py (simulate and its helpers)

Machine floats of the source are modelled as exact rationals; pandas Series
are modelled as lists of rationals (or as functions on hour indices where the
series length is fixed at 8760 by construction).  Randomness (np.random) and
the transcendental functions np.cos / np.sin are abstracted as explicit
function parameters, constrained only where a theorem needs the bound that
the true function satisfies (for cosine: values in [-1, 1]).
-/

namespace SimuSolaire

/-! ## Weather resolver: modules/weather -/

/-- Proleptic Gregorian leap-year rule, the semantics of Python datetime for
the pd.date_range index used by generate_mock_weather. -/
def isLeapYear (y : ℕ) : Bool :=
  y % 4 == 0 && (y % 100 != 0 || y % 400 == 0)

/-- Number of calendar days of a year under datetime semantics. -/
def daysInYear (y : ℕ) : ℕ :=
  if isLeapYear y then 366 else 365

/-- Row count of the DataFrame returned by generate_mock_weather
(modules/weather/mock.py, lines 69-96): the index is
pd.date_range(datetime(year,1,1), datetime(year+1,1,1), freq=H,
inclusive=left), i.e. one sample per hour of the requested year.  The
generated channels (ghi, dni, dhi, temp_air, wind_speed, humidity) are all
built over this same index and do not change the row count. -/
def generate_mock_weather_rows (lat lon : ℚ) (year : ℕ) : ℕ :=
  24 * daysInYear year

/-- Default year used by generate_mock_weather when the caller passes none
(signature default year=2020). -/
def mockDefaultYear : ℕ := 2020

/-- Result structure of get_weather_data (modules/weather/init, lines 10-31):
a dict with a source tag, the weather DataFrame (modelled by its row count),
and an optional warning message. -/
structure WeatherFetchResult where
  source : String
  dataRows : ℕ
  warning : Option String
deriving DecidableEq

/-- get_weather_data (modules/weather/init, lines 10-31).  The live fetch
fetch_pvgis_direct is a network call; it is abstracted as a parameter that
either returns a parsed hourly DataFrame (modelled by its row count) or
raises with a message.  When use_mock is set the code raises
WeatherDataError("Mode mock forcé") before attempting the fetch; the
enclosing except Exception builds the MOCK result from the exception text. -/
def get_weather_data (useMock : Bool) (fetch : Except String ℕ) (lat lon : ℚ) :
    WeatherFetchResult :=
  if useMock then
    { source := "MOCK"
      dataRows := generate_mock_weather_rows lat lon mockDefaultYear
      warning := some ("PVGIS indisponible: " ++ "Mode mock forcé") }
  else
    match fetch with
    | .ok n => { source := "PVGIS", dataRows := n, warning := none }
    | .error e =>
        { source := "MOCK"
          dataRows := generate_mock_weather_rows lat lon mockDefaultYear
          warning := some ("PVGIS indisponible: " ++ e) }

/-! ## Economic analyzer: modules/economics/roi_calculator.py -/

/-- Exceptions that can be raised inside analyze and are swallowed by its
top-level except Exception handler.  valueError covers the explicit raises
(missing data, empty aligned series) and the ValueError of min() on an empty
collection; nameError is the unbound-local reference to estimated_power. -/
inductive EconErr where
  | valueError
  | nameError
deriving DecidableEq

/-- The pv_production argument of analyze, restricted to the keys read by the
code: hourly_production_kw (default empty series) and annual_yield_kwh
(default 0). -/
structure EconProdInput where
  hourly_production_kw : List ℚ
  annual_yield_kwh : ℚ

/-- The consumption argument of analyze, restricted to the key read by the
code: consumption_kw (default empty series). -/
structure EconConsInput where
  consumption_kw : List ℚ

/-- Tariff table shape as accessed by roi_calculator: purchase price,
the electricity sell dict (modelled by its list of values), the optional
autoconsommation subsidy bands, and the presence of a tva_reduced entry.
The default TARIFFS constant is imported from config.tariffs. -/
structure Tariffs where
  purchase : ℚ
  sell : List ℚ
  subAuto : Option (ℚ × ℚ × ℚ)
  tvaReduced : Bool

/-- Modelled from the spec: the default TARIFFS constant imported from
config/tariffs.py, a file absent from the source tree.  Spec section 4.5:
purchase price and per-band sell prices with the lowest band used by
default, a banded autoconsumption premium in euro per kW, and a
reduced-tax-rate entry for small systems. -/
def TARIFFS : Tariffs :=
  { purchase := 20/100
    sell := [4/100, 4/100, 731/10000]
    subAuto := some (80, 80, 180)
    tvaReduced := true }

/-- Energy flow figures computed by _calculate_energy_flows. -/
structure EnergyFlows where
  autoconsumption_kwh : ℚ
  surplus_kwh : ℚ
  deficit_kwh : ℚ
  autoconsumption_rate : ℚ
  autonomy_rate : ℚ
  total_production_kwh : ℚ
  total_consumption_kwh : ℚ
deriving DecidableEq

/-- _align_time_series (roi_calculator.py, lines 87-104): truncate both
series to the shorter length, raise ValueError when that length is zero,
then fillna(0).clip(lower=0) on both. -/
def align_time_series (production consumption : List ℚ) :
    Except EconErr (List ℚ × List ℚ) :=
  if min production.length consumption.length = 0 then .error .valueError
  else
    .ok ((production.take (min production.length consumption.length)).map
          (fun x => max x 0),
         (consumption.take (min production.length consumption.length)).map
          (fun x => max x 0))

/-- Hourly self-consumption series: np.minimum(production, consumption). -/
def autoconsumptionSeries (production consumption : List ℚ) : List ℚ :=
  List.zipWith min production consumption

/-- Hourly surplus series: np.maximum(production - consumption, 0). -/
def surplusSeries (production consumption : List ℚ) : List ℚ :=
  List.zipWith (fun p c => max (p - c) 0) production consumption

/-- Hourly deficit series: np.maximum(consumption - production, 0). -/
def deficitSeries (production consumption : List ℚ) : List ℚ :=
  List.zipWith (fun p c => max (c - p) 0) production consumption

/-- _calculate_energy_flows (roi_calculator.py, lines 106-135). -/
def calculate_energy_flows (production consumption : List ℚ) : EnergyFlows :=
  let totalProduction := production.sum
  let totalConsumption := consumption.sum
  let totalAuto := (autoconsumptionSeries production consumption).sum
  { autoconsumption_kwh := totalAuto
    surplus_kwh := (surplusSeries production consumption).sum
    deficit_kwh := (deficitSeries production consumption).sum
    autoconsumption_rate := if 0 < totalProduction then totalAuto / totalProduction else 0
    autonomy_rate := if 0 < totalConsumption then totalAuto / totalConsumption else 0
    total_production_kwh := totalProduction
    total_consumption_kwh := totalConsumption }

/-- min over the values of the sell dict; min() raises ValueError on an
empty collection. -/
def minSellPrice : List ℚ → Except EconErr ℚ
  | [] => .error .valueError
  | x :: xs => .ok (xs.foldl min x)

/-- Financial metric figures computed by _calculate_financial_metrics.
roi_years is a rational or plus-infinity (float inf in the source). -/
structure FinancialMetrics where
  annual_savings : ℚ
  autoconsumption_savings : ℚ
  injection_revenue : ℚ
  avoided_cost : ℚ
  roi_years : WithTop ℚ
  net_present_value_25y : ℚ
  total_savings_25y : ℚ
  purchase_price_kwh : ℚ
  sell_price_kwh : ℚ
deriving DecidableEq

/-- _calculate_payback_time (roi_calculator.py, lines 208-228): simulate
year by year with degradation until cumulative savings reach the
investment, capped at 50 years.  The while loop is embedded with explicit
fuel, which the guard year < 50 makes exact. -/
def paybackGo (annualSavings investment : ℚ) : ℕ → ℚ → ℕ → ℕ
  | 0, _, year => year
  | fuel + 1, cumulative, year =>
      if cumulative < investment ∧ year < 50 then
        paybackGo annualSavings investment fuel
          (cumulative + annualSavings * (199/200) ^ year) (year + 1)
      else year

/-- _calculate_payback_time: inf when annual savings are non-positive. -/
def calculate_payback_time (annualSavings investment : ℚ) : WithTop ℚ :=
  if annualSavings ≤ 0 then ⊤
  else ((paybackGo annualSavings investment 50 0 0 : ℕ) : ℚ)

/-- _calculate_long_term_cashflow (roi_calculator.py, lines 176-206):
25 years of savings with 0.5 percent annual degradation, discounted at
3 percent; npv subtracts the investment. -/
def long_term_npv (annualSavings investment : ℚ) : ℚ :=
  (∑ y ∈ Finset.range 25,
    annualSavings * (199/200) ^ y / (103/100) ^ y) - investment

/-- Undiscounted 25-year savings total of _calculate_long_term_cashflow. -/
def long_term_total_savings (annualSavings : ℚ) : ℚ :=
  ∑ y ∈ Finset.range 25, annualSavings * (199/200) ^ y

/-- _calculate_financial_metrics (roi_calculator.py, lines 137-174). -/
def calculate_financial_metrics (flows : EnergyFlows) (investment : ℚ)
    (t : Tariffs) : Except EconErr FinancialMetrics :=
  match minSellPrice t.sell with
  | .error e => .error e
  | .ok sellPrice =>
    let purchasePrice := t.purchase
    let autoSavings := flows.autoconsumption_kwh * purchasePrice
    let injection := flows.surplus_kwh * sellPrice
    let annualSavings := autoSavings + injection
    .ok
      { annual_savings := annualSavings
        autoconsumption_savings := autoSavings
        injection_revenue := injection
        avoided_cost := flows.autoconsumption_kwh * purchasePrice
        roi_years :=
          if 0 < annualSavings then ((investment / annualSavings : ℚ) : WithTop ℚ)
          else ⊤
        net_present_value_25y := long_term_npv annualSavings investment
        total_savings_25y := long_term_total_savings annualSavings
        purchase_price_kwh := purchasePrice
        sell_price_kwh := sellPrice }

/-- Subsidy figures computed by _calculate_subsidies. -/
structure Subsidies where
  subsidies_euro : ℚ
  autoconsumption_bonus : ℚ
  tva_reduction : ℚ
  regional_bonus : ℚ
deriving DecidableEq

/-- _calculate_subsidies (roi_calculator.py, lines 230-265). -/
def calculate_subsidies (systemPowerKw : ℚ) (t : Tariffs) : Subsidies :=
  let bonus :=
    match t.subAuto with
    | none => 0
    | some (r1, r2, r3) =>
        if systemPowerKw ≤ 3 then r1 * systemPowerKw
        else if systemPowerKw ≤ 9 then r2 * systemPowerKw
        else r3 * min systemPowerKw 36
  let tva :=
    if t.tvaReduced ∧ systemPowerKw ≤ 3 then (systemPowerKw * 2083) * (2/100)
    else 0
  { subsidies_euro := bonus + tva + 0
    autoconsumption_bonus := bonus
    tva_reduction := tva
    regional_bonus := 0 }

/-- Result dict of analyze.  A field holds none when the corresponding key
is absent from the returned dict (the success dict and the error-path
default dict carry different key sets). -/
structure EconResults where
  autoconsumption_kwh : Option ℚ
  surplus_kwh : Option ℚ
  deficit_kwh : Option ℚ
  autoconsumption_rate : Option ℚ
  autonomy_rate : Option ℚ
  total_production_kwh : Option ℚ
  total_consumption_kwh : Option ℚ
  annual_savings : Option ℚ
  autoconsumption_savings : Option ℚ
  injection_revenue : Option ℚ
  avoided_cost : Option ℚ
  roi_years : Option (WithTop ℚ)
  net_present_value_25y : Option ℚ
  total_savings_25y : Option ℚ
  purchase_price_kwh : Option ℚ
  sell_price_kwh : Option ℚ
  subsidies_euro : Option ℚ
  autoconsumption_bonus : Option ℚ
  tva_reduction : Option ℚ
  regional_bonus : Option ℚ
  investment_cost_euro : Option ℚ
  system_power_kw : Option ℚ
  errorMsg : Option String
deriving DecidableEq

/-- _get_default_economic_results (roi_calculator.py, lines 267-282): the
documented all-zero, infinite-payback default returned on any internal
failure. -/
def default_economic_results : EconResults :=
  { autoconsumption_kwh := some 0
    surplus_kwh := some 0
    deficit_kwh := some 0
    autoconsumption_rate := some 0
    autonomy_rate := some 0
    total_production_kwh := none
    total_consumption_kwh := none
    annual_savings := some 0
    autoconsumption_savings := none
    injection_revenue := none
    avoided_cost := none
    roi_years := some ⊤
    net_present_value_25y := none
    total_savings_25y := none
    purchase_price_kwh := none
    sell_price_kwh := none
    subsidies_euro := some 0
    autoconsumption_bonus := none
    tva_reduction := none
    regional_bonus := none
    investment_cost_euro := some 0
    system_power_kw := none
    errorMsg := some "Calcul économique échoué" }

/-- Python truthiness of the expression system_power_kw or estimated_power:
None and 0.0 are falsy; referencing estimated_power when it was never
assigned raises NameError (UnboundLocalError). -/
def orTruthy (systemPowerKw : Option ℚ) (estimatedPower : Option ℚ) :
    Except EconErr ℚ :=
  match systemPowerKw with
  | some p =>
      if p = 0 then
        match estimatedPower with
        | some e => .ok e
        | none => .error .nameError
      else .ok p
  | none =>
      match estimatedPower with
      | some e => .ok e
      | none => .error .nameError

/-- Body of analyze (roi_calculator.py, lines 34-81) up to the final
results dict, returning the exception that the top-level handler catches
on failure paths.  estimated_power is an Option threaded alongside the
investment cost: it is assigned only on the branch of the source that
defines the local variable. -/
def analyzeCore (prod : EconProdInput) (cons : EconConsInput)
    (investmentCost : Option ℚ) (t : Tariffs) (systemPowerKw : Option ℚ) :
    Except EconErr EconResults :=
  let productionHourly := prod.hourly_production_kw
  let consumptionHourly := cons.consumption_kw
  if productionHourly.length = 0 ∨ consumptionHourly.length = 0 then
    .error .valueError
  else
    match align_time_series productionHourly consumptionHourly with
    | .error e => .error e
    | .ok (pa, ca) =>
      let flows := calculate_energy_flows pa ca
      let estimated := prod.annual_yield_kwh / 1200
      let ie : ℚ × Option ℚ :=
        match investmentCost with
        | some c => (c, none)
        | none =>
            match systemPowerKw with
            | some p =>
                if p = 0 then (estimated * 2500, some estimated)
                else (p * 2500, none)
            | none => (estimated * 2500, some estimated)
      match calculate_financial_metrics flows ie.1 t with
      | .error e => .error e
      | .ok fin =>
        match orTruthy systemPowerKw ie.2 with
        | .error e => .error e
        | .ok sp =>
          let subs := calculate_subsidies sp t
          .ok
            { autoconsumption_kwh := some flows.autoconsumption_kwh
              surplus_kwh := some flows.surplus_kwh
              deficit_kwh := some flows.deficit_kwh
              autoconsumption_rate := some flows.autoconsumption_rate
              autonomy_rate := some flows.autonomy_rate
              total_production_kwh := some flows.total_production_kwh
              total_consumption_kwh := some flows.total_consumption_kwh
              annual_savings := some fin.annual_savings
              autoconsumption_savings := some fin.autoconsumption_savings
              injection_revenue := some fin.injection_revenue
              avoided_cost := some fin.avoided_cost
              roi_years := some fin.roi_years
              net_present_value_25y := some fin.net_present_value_25y
              total_savings_25y := some fin.total_savings_25y
              purchase_price_kwh := some fin.purchase_price_kwh
              sell_price_kwh := some fin.sell_price_kwh
              subsidies_euro := some subs.subsidies_euro
              autoconsumption_bonus := some subs.autoconsumption_bonus
              tva_reduction := some subs.tva_reduction
              regional_bonus := some subs.regional_bonus
              investment_cost_euro := some ie.1
              system_power_kw := some sp
              errorMsg := none }

/-- analyze (roi_calculator.py, lines 34-85): the whole body runs under a
try whose except Exception handler returns the documented default. -/
def analyze (prod : EconProdInput) (cons : EconConsInput)
    (investmentCost : Option ℚ) (t : Tariffs) (systemPowerKw : Option ℚ) :
    EconResults :=
  match analyzeCore prod cons investmentCost t systemPowerKw with
  | .ok r => r
  | .error _ => default_economic_results

/-! ## Production estimator and cache tiers: modules/pv_production -/

/-- Result dict of the production estimator and of the cache tiers
(pvlib_wrapper.py and caching.py).  A field holds none when the
corresponding key is absent from the dict: a fresh computation fills the
first six keys; the disk-tier reload of caching.py fills only
hourly_production_kw, annual_yield_kwh, cached; the DB-tier reload of
database.py uses the distinct keys hourly and annual_yield. -/
structure PVDict where
  hourly_production_kw : Option (List ℚ)
  annual_yield_kwh : Option ℚ
  capacity_factor : Option ℚ
  peak_power_kw : Option ℚ
  cached : Option Bool
  model_used : Option String
  hourly : Option (List ℚ)
  annual_yield : Option ℚ
deriving DecidableEq

/-- Outcome of reading the disk cache file of one fingerprint: no file,
a readable parquet holding the production_kw column, or a file whose read
or deserialize raises (corrupt parquet). -/
inductive DiskRead where
  | absent
  | ok (data : List ℚ)
  | corrupt
deriving DecidableEq

/-- Exceptions of the caching layer: ValueError is the cache-miss signal of
cached_simulation_memory; pvCalculationError is the PVCalculationError
raised on a cache read (or write) fault.  PVCalculationError subclasses
SolarSimulatorError, which subclasses Exception, not ValueError. -/
inductive CacheErr where
  | valueError
  | pvCalculationError
deriving DecidableEq

/-- State of the in-memory tier (module global _memory_cache, insertion
ordered, newest entry at the head of the list) together with the disk tier
(one parquet file per fingerprint). -/
structure CacheState where
  mem : List (String × PVDict)
  disk : String → DiskRead

/-- Lookup in _memory_cache. -/
def lookupMem (mem : List (String × PVDict)) (h : String) : Option PVDict :=
  match mem.find? (fun e => e.1 == h) with
  | some e => some e.2
  | none => none

/-- _add_to_memory_cache (caching.py, lines 80-90): when the dict already
holds _cache_max_size = 128 entries the oldest insertion is evicted, then
the new entry is stored. -/
def add_to_memory_cache (mem : List (String × PVDict)) (h : String)
    (r : PVDict) : List (String × PVDict) :=
  let mem := if 128 ≤ mem.length then mem.dropLast else mem
  (h, r) :: mem

/-- The dict rebuilt by cached_simulation_memory from a disk-tier parquet
hit (caching.py, lines 40-45): only the production column, its sum and the
cached flag survive the round trip. -/
def diskReloadDict (data : List ℚ) : PVDict :=
  { hourly_production_kw := some data
    annual_yield_kwh := some data.sum
    capacity_factor := none
    peak_power_kw := none
    cached := some true
    model_used := none
    hourly := none
    annual_yield := none }

/-- cached_simulation_memory (caching.py, lines 26-54): memory hit, else
disk load (raising PVCalculationError when the read fails), else raise
ValueError as the miss signal.  The lru_cache wrapper adds a same-process
memo that is empty in the fresh-state and post-restart scenarios considered
here and never caches the raised exceptions. -/
def cached_simulation_memory (st : CacheState) (h : String) :
    Except CacheErr (PVDict × CacheState) :=
  match lookupMem st.mem h with
  | some r => .ok (r, st)
  | none =>
    match st.disk h with
    | .ok data =>
        let r := diskReloadDict data
        .ok (r, { st with mem := add_to_memory_cache st.mem h r })
    | .corrupt => .error .pvCalculationError
    | .absent => .error .valueError

/-- save_to_cache (caching.py, lines 56-78): write the parquet file holding
results.get(hourly_production_kw, empty series) and store the full results
dict in memory.  Disk write faults raise PVCalculationError in the source;
the write is modelled as succeeding, since only read faults are at issue in
the claims. -/
def save_to_cache (st : CacheState) (h : String) (r : PVDict) : CacheState :=
  { mem := add_to_memory_cache st.mem h r
    disk := fun k =>
      if k = h then .ok (r.hourly_production_kw.getD []) else st.disk k }

/-- Row read back from the persistent store by DatabaseManager.get_simulation
(database.py, lines 49-61). -/
structure DBEntry where
  hourlyData : List ℚ
  annualYield : ℚ

/-- The dict built from a DB-tier hit: keys hourly, annual_yield, cached. -/
def dbReloadDict (e : DBEntry) : PVDict :=
  { hourly_production_kw := none
    annual_yield_kwh := none
    capacity_factor := none
    peak_power_kw := none
    cached := some true
    model_used := none
    hourly := some e.hourlyData
    annual_yield := some e.annualYield }

/-- location_params dict: lat is read with .get(lat, 45) in the fallback
tiers. -/
structure LocationParams where
  lat : Option ℚ
  lon : Option ℚ

/-- system_params dict: power_kw is read with .get(power_kw, 3.0) in the
fallback tiers and directly (KeyError when absent) in the advanced tier. -/
structure SystemParams where
  power_kw : Option ℚ

/-- Weather argument of the production models, as branched on by
_simple_fallback_calculation: a non-empty DataFrame with a ghi column
(withGhi carries a non-empty list by construction of the callers), a
non-empty DataFrame without a ghi column, or no usable DataFrame at all. -/
inductive WeatherInput where
  | withGhi (ghi : List ℚ)
  | noGhiColumn
  | noWeather

/-- The fixed simulated daily GHI profile of the no-ghi-column branch
(pvlib_wrapper.py, line 78): 24 hourly values repeated over the year. -/
def dailyGhiProfile : List ℚ :=
  [0, 0, 0, 0, 0, 0, 100, 300, 500, 700, 800, 900, 800, 700, 500, 300, 100,
   0, 0, 0, 0, 0, 0, 0]

/-- The year-long GHI series of the no-ghi-column branch: the daily profile
repeated 8760 // 24 = 365 times (the pad and truncate steps of the source
are no-ops at this exact length). -/
def noGhiColumnProfile : List ℚ :=
  (List.replicate 365 dailyGhiProfile).flatten

/-- Hour-by-hour GHI of the no-weather branch (pvlib_wrapper.py, lines
85-115): latitude-banded base irradiance scaled by a seasonal cosine and a
daytime sine.  cosT q models np.cos(2 pi q) and sinT q models np.sin(pi q),
abstracting the transcendental library calls. -/
def latitudeGhiAt (cosT sinT : ℚ → ℚ) (baseIrradiance : ℚ) (hour : ℕ) : ℚ :=
  let dayOfYear : ℕ := hour / 24 + 1
  let hourOfDay : ℕ := hour % 24
  let seasonalFactor : ℚ := 7/10 + 3/5 * cosT ((((dayOfYear : ℤ) : ℚ) - 172) / 365)
  let dailyFactor : ℚ :=
    if 6 ≤ hourOfDay ∧ hourOfDay ≤ 18 then
      sinT ((((hourOfDay : ℤ) : ℚ) - 6) / 12)
    else 0
  max 0 (baseIrradiance * seasonalFactor * dailyFactor)

/-- GHI series of the no-weather branch over 8760 hours. -/
def noWeatherProfile (cosT sinT : ℚ → ℚ) (loc : LocationParams) : List ℚ :=
  let lat := loc.lat.getD 45
  let baseIrradiance : ℚ := if lat > 50 then 150 else if lat > 45 then 200 else 250
  (List.range 8760).map (latitudeGhiAt cosT sinT baseIrradiance)

/-- _emergency_default_values (pvlib_wrapper.py, lines 177-204):
latitude-banded flat yield per installed kW. -/
def emergency_default_values (loc : LocationParams) (sys : SystemParams) :
    PVDict :=
  let systemPowerKw := sys.power_kw.getD 3
  let lat := loc.lat.getD 45
  let yieldPerKwc : ℚ := if lat > 50 then 1000 else if lat > 45 then 1200 else 1400
  let annualYield := systemPowerKw * yieldPerKwc
  let hourlyAvg := annualYield / 8760
  { hourly_production_kw := some (List.replicate 8760 hourlyAvg)
    annual_yield_kwh := some annualYield
    capacity_factor := some (7/50)
    peak_power_kw := some (systemPowerKw * 4/5)
    cached := some false
    model_used := some "Emergency Default Values"
    hourly := none
    annual_yield := none }

/-- _simple_fallback_calculation (pvlib_wrapper.py, lines 62-175).  The
enclosing try is unreachable failure handling for the embedded rational
arithmetic, so the except-branch call of _emergency_default_values does not
appear; the inline defaults of the validation step (lines 143-158) do. -/
def simple_fallback_calculation (cosT sinT : ℚ → ℚ) (loc : LocationParams)
    (sys : SystemParams) (w : WeatherInput) : PVDict :=
  let ghiData : List ℚ :=
    match w with
    | .withGhi ghi => ghi.map (fun x => max x 0)
    | .noGhiColumn => noGhiColumnProfile
    | .noWeather => noWeatherProfile cosT sinT loc
  let systemPowerKw := sys.power_kw.getD 3
  let totalEfficiency : ℚ := (1/5) * (19/20) * (17/20)
  let panelAreaM2 := systemPowerKw * 5
  let hourlyProductionKw :=
    ghiData.map (fun g => min (g * panelAreaM2 * totalEfficiency / 1000) systemPowerKw)
  let annualYieldKwh := hourlyProductionKw.sum
  let capacityFactor : ℚ :=
    if 0 < systemPowerKw then
      (hourlyProductionKw.sum / (hourlyProductionKw.length : ℚ)) / systemPowerKw
    else 0
  let peakPowerKw := hourlyProductionKw.foldr max 0
  if annualYieldKwh = 0 ∨ 1 < capacityFactor then
    let lat := loc.lat.getD 45
    let annualDefault : ℚ :=
      if lat > 50 then systemPowerKw * 1000
      else if lat > 45 then systemPowerKw * 1200
      else systemPowerKw * 1400
    let hourlyAvg := annualDefault / 8760
    { hourly_production_kw := some (List.replicate 8760 hourlyAvg)
      annual_yield_kwh := some annualDefault
      capacity_factor := some (7/50)
      peak_power_kw := some (systemPowerKw * 4/5)
      cached := some false
      model_used := some "Simple Mathematical Model"
      hourly := none
      annual_yield := none }
  else
    { hourly_production_kw := some hourlyProductionKw
      annual_yield_kwh := some annualYieldKwh
      capacity_factor := some capacityFactor
      peak_power_kw := some peakPowerKw
      cached := some false
      model_used := some "Simple Mathematical Model"
      hourly := none
      annual_yield := none }

/-- _pvwatts_calculation (pvlib_wrapper.py, lines 47-60): both the body and
its except handler delegate directly to _simple_fallback_calculation. -/
def pvwatts_calculation (cosT sinT : ℚ → ℚ) (loc : LocationParams)
    (sys : SystemParams) (w : WeatherInput) : PVDict :=
  simple_fallback_calculation cosT sinT loc sys w

/-- _original_pv_calculation (pvlib_wrapper.py, lines 206-274).  The pvlib
ModelChain run is a black box abstracted as acOutcome, the AC power series
in watts or a failure; any exception inside the tier, including the KeyError
of the direct system_params[power_kw] access, falls back to
_pvwatts_calculation. -/
def original_pv_calculation (acOutcome : Except Unit (List ℚ))
    (cosT sinT : ℚ → ℚ) (loc : LocationParams) (sys : SystemParams)
    (w : WeatherInput) : PVDict :=
  match acOutcome, sys.power_kw with
  | .ok acWatts, some powerKw =>
      let acPowerKw := acWatts.map (fun x => max (x / 1000) 0)
      { hourly_production_kw := some acPowerKw
        annual_yield_kwh := some acPowerKw.sum
        capacity_factor :=
          some (if 0 < powerKw then
                  (acPowerKw.sum / (acPowerKw.length : ℚ)) / powerKw
                else 0)
        peak_power_kw := some (acPowerKw.foldr max 0)
        cached := some false
        model_used := some "Advanced"
        hourly := none
        annual_yield := none }
  | _, _ => pvwatts_calculation cosT sinT loc sys w

/-- Model choice of simulate_pv_system step 3 (pvlib_wrapper.py, lines
349-360): the simple model when pinned, otherwise the advanced tier with
fallback to PVWatts on any exception. -/
def computeResults (useSimpleModel : Bool) (acOutcome : Except Unit (List ℚ))
    (cosT sinT : ℚ → ℚ) (loc : LocationParams) (sys : SystemParams)
    (w : WeatherInput) : PVDict :=
  if useSimpleModel then pvwatts_calculation cosT sinT loc sys w
  else original_pv_calculation acOutcome cosT sinT loc sys w

/-- simulate_pv_system (pvlib_wrapper.py, lines 307-380).  params_hash
abstracts hash_parameters(params), the deterministic md5 digest of the
request.  The DB tier is a parameter: a fingerprint maps to a row, to no
row, or to a raised exception (caught and logged by the caller).  Step 1
catches only ValueError from cached_simulation_memory, so the
PVCalculationError of a corrupt disk read propagates.  Returns the result
or the propagated exception, with the updated cache state. -/
def simulate_pv_system (useCache useDb useSimpleModel : Bool)
    (acOutcome : Except Unit (List ℚ))
    (db : String → Except Unit (Option DBEntry)) (cosT sinT : ℚ → ℚ)
    (st : CacheState) (loc : LocationParams) (sys : SystemParams)
    (w : WeatherInput) (params_hash : String) :
    Except CacheErr PVDict × CacheState :=
  let step3 : CacheState → Except CacheErr PVDict × CacheState := fun st =>
    let results := computeResults useSimpleModel acOutcome cosT sinT loc sys w
    let st := if useCache then save_to_cache st params_hash results else st
    (.ok results, st)
  let step2 : CacheState → Except CacheErr PVDict × CacheState := fun st =>
    if useDb then
      match db params_hash with
      | .ok (some row) =>
          let results := dbReloadDict row
          (.ok results, save_to_cache st params_hash results)
      | .ok none => step3 st
      | .error _ => step3 st
    else step3 st
  if useCache then
    match cached_simulation_memory st params_hash with
    | .ok (r, st) => (.ok r, st)
    | .error .valueError => step2 st
    | .error .pvCalculationError => (.error .pvCalculationError, st)
  else step2 st

/-! ## Consumption synthesizer: modules/consumption/appliances_models.py

The hourly index is pd.date_range(2020-01-01, periods=8760, freq=H):
hour h of the series falls on day h / 24 (2020-01-01 is a Wednesday, so
timestamp.weekday() is (2 + h / 24) mod 7 and tm_yday is h / 24 + 1) at
hour-of-day h mod 24.  Series over this fixed index are modelled as
functions from the hour index, summed over Finset.range 8760. -/

/-- Hour of day of hour index h. -/
def hourOfIdx (h : ℕ) : ℕ := h % 24

/-- tm_yday of hour index h. -/
def dayOfYearIdx (h : ℕ) : ℕ := h / 24 + 1

/-- timestamp.weekday() of hour index h (2020-01-01 is weekday 2). -/
def weekdayIdx (h : ℕ) : ℕ := (2 + h / 24) % 7

/-- weekday() greater or equal 5 marks Saturday and Sunday. -/
def isWeekendIdx (h : ℕ) : Bool := decide (5 ≤ weekdayIdx h)

/-- DPE coefficient lookup in kWh per square metre per year.  The source
loads assets/dpe_coefficients.json and, when that file is absent (it is not
part of the source tree), uses this hardcoded fallback dict; lookup misses
default to class D. -/
def dpeCoeff (dpe : String) : ℚ :=
  if dpe = "A" then 20
  else if dpe = "B" then 25
  else if dpe = "C" then 35
  else if dpe = "D" then 50
  else if dpe = "E" then 70
  else if dpe = "F" then 90
  else if dpe = "G" then 120
  else 50

/-- Annual base consumption before profiling (appliances_models.py, lines
75-83): DPE coefficient times surface, scaled by the occupancy factor
0.8 + (occupants - 1) * 0.1. -/
def annualBaseKwh (dpe : String) (occupants : ℕ) (surface : ℚ) : ℚ :=
  dpeCoeff dpe * surface * (4/5 + (((occupants : ℤ) : ℚ) - 1) * (1/10))

/-- Seasonal heating factor of the base profile (line 98); cosT q models
np.cos(2 pi q). -/
def seasonalFactorBase (cosT : ℚ → ℚ) (day : ℕ) : ℚ :=
  3/2 + 4/5 * cosT ((((day : ℤ) : ℚ) - 15) / 365)

/-- Daily factor of the base profile (lines 101-107). -/
def dailyFactorBase (h : ℕ) : ℚ :=
  if 6 ≤ hourOfIdx h ∧ hourOfIdx h ≤ 22 then
    if isWeekendIdx h then 6/5
    else if 9 ≤ hourOfIdx h ∧ hourOfIdx h ≤ 17 then 4/5
    else 11/10
  else 2/5

/-- Unnormalized hourly load factor of the base profile (line 110). -/
def baseHourlyFactor (cosT : ℚ → ℚ) (h : ℕ) : ℚ :=
  seasonalFactorBase cosT (dayOfYearIdx h) * dailyFactorBase h

/-- Sum of the unnormalized base profile over the year (line 115). -/
def baseFactorSum (cosT : ℚ → ℚ) : ℚ :=
  ∑ h ∈ Finset.range 8760, baseHourlyFactor cosT h

/-- _calculate_base_consumption (appliances_models.py, lines 70-117): the
hourly factors normalized so that the year sums to annualBaseKwh. -/
def calculate_base_consumption (cosT : ℚ → ℚ) (dpe : String) (occupants : ℕ)
    (surface : ℚ) : ℕ → ℚ :=
  fun h => baseHourlyFactor cosT h / baseFactorSum cosT
    * annualBaseKwh dpe occupants surface

/-- One selected appliance of the request: name, model and declared weekly
usage hours. -/
structure Appliance where
  name : String
  modelName : String
  usage_hours : ℚ

/-- _calculate_appliances_consumption (appliances_models.py, lines 119-135):
the sum over selected appliances of their simulated hourly series.
_simulate_single_appliance is abstracted as the parameter simOne because it
closes over the APPLIANCES reference table of config/appliances.py, a file
absent from the source tree; the zero-appliance case settled here never
invokes it. -/
def calculate_appliances_consumption (simOne : Appliance → ℕ → ℚ)
    (appliances : List Appliance) : ℕ → ℚ :=
  fun h => (appliances.map (fun a => simOne a h)).sum

/-- The declared peak hours of _apply_consumption_patterns (line 210). -/
def peakHours : List ℕ := [7, 8, 12, 18, 19, 20]

/-- _apply_consumption_patterns (appliances_models.py, lines 201-219):
multiplicative noise (np.random.normal(1, 0.1), abstracted as the noise
parameter), a 1.2 multiplier at declared peak hours, a clip to the
subscribed-power ceiling 6 + 3 * occupants, and a clip to non-negative
values. -/
def apply_consumption_patterns (noise : ℕ → ℚ) (occupants : ℕ) (c : ℕ → ℚ) :
    ℕ → ℚ :=
  fun h =>
    let x := c h * noise h
    let x := if hourOfIdx h ∈ peakHours then x * (6/5) else x
    let maxPowerKw : ℚ := 6 + (occupants : ℚ) * 3
    max (min x maxPowerKw) 0

/-- Result dict of the consumption simulate entry point. -/
structure ConsumptionResults where
  consumption_kw : ℕ → ℚ
  annual_consumption_kwh : ℚ
  base_consumption_kwh : ℚ
  appliances_consumption_kwh : ℚ
  peak_consumption_kw : ℚ
  average_consumption_kw : ℚ

/-- simulate (appliances_models.py, lines 28-68): base plus appliance load,
realistic patterns applied, and the summary figures of the result dict.
Unlike the economic analyzer, this simulate re-raises internal errors; the
embedded arithmetic is total. -/
def simulate_consumption (cosT : ℚ → ℚ) (noise : ℕ → ℚ)
    (simOne : Appliance → ℕ → ℚ) (appliances : List Appliance) (dpe : String)
    (occupants : ℕ) (surface : ℚ) : ConsumptionResults :=
  let base := calculate_base_consumption cosT dpe occupants surface
  let apps := calculate_appliances_consumption simOne appliances
  let total := fun h => base h + apps h
  let final := apply_consumption_patterns noise occupants total
  { consumption_kw := final
    annual_consumption_kwh := ∑ h ∈ Finset.range 8760, final h
    base_consumption_kwh := ∑ h ∈ Finset.range 8760, base h
    appliances_consumption_kwh := ∑ h ∈ Finset.range 8760, apps h
    peak_consumption_kw := ((List.range 8760).map final).foldr max 0
    average_consumption_kw := (∑ h ∈ Finset.range 8760, final h) / 8760 }

/-! ## Theorems -/

/-- C1 (amended): the synthetic generator returns 24 * daysInYear(year)
hourly rows; at the default year 2020, a leap year, that is 8784, not 8760,
and the weather resolver returns those 8784 synthetic samples on both
fallback paths; the count is 8760 exactly when the year is not a leap
year. -/
theorem weather_sample_count (lat lon : ℚ) (fetch : Except String ℕ) :
    (∀ year, generate_mock_weather_rows lat lon year = 24 * daysInYear year)
    ∧ generate_mock_weather_rows lat lon mockDefaultYear = 8784
    ∧ (get_weather_data true fetch lat lon).dataRows = 8784
    ∧ (∀ e, (get_weather_data false (.error e) lat lon).dataRows = 8784)
    ∧ (∀ year, generate_mock_weather_rows lat lon year = 8760
        ↔ isLeapYear year = false) := by
  refine ⟨fun year => rfl, rfl, ?_, fun e => ?_, fun year => ?_⟩
  · simp [get_weather_data, generate_mock_weather_rows, mockDefaultYear,
      daysInYear, isLeapYear]
  · simp [get_weather_data, generate_mock_weather_rows, mockDefaultYear,
      daysInYear, isLeapYear]
  · unfold generate_mock_weather_rows daysInYear
    cases h : isLeapYear year <;> simp

/-- C1 counterexample: at the default year 2020 the synthetic generator
returns 8784 rows, not the 8760 the claim states. -/
theorem weather_sample_count_cex :
    generate_mock_weather_rows (4885/100) (235/100) 2020 = 8784
    ∧ generate_mock_weather_rows (4885/100) (235/100) 2020 ≠ 8760 := by
  constructor <;>
    simp [generate_mock_weather_rows, daysInYear, isLeapYear]

/-- C8: the weather resolver never propagates a fetch failure: with the
force-synthetic flag set, or whenever the live fetch raises, it returns a
result tagged MOCK carrying an advisory warning; on live success it returns
a result tagged PVGIS with no warning. -/
theorem weather_resolver_fallback (lat lon : ℚ) (fetch : Except String ℕ) :
    ((get_weather_data true fetch lat lon).source = "MOCK"
      ∧ (get_weather_data true fetch lat lon).warning.isSome = true)
    ∧ (∀ e, (get_weather_data false (.error e) lat lon).source = "MOCK"
      ∧ (get_weather_data false (.error e) lat lon).warning
          = some ("PVGIS indisponible: " ++ e))
    ∧ (∀ n, (get_weather_data false (.ok n) lat lon).source = "PVGIS"
      ∧ (get_weather_data false (.ok n) lat lon).warning = none) := by
  refine ⟨?_, fun e => ?_, fun n => ?_⟩ <;> simp [get_weather_data]

/-- C7: the economic analyzer never raises: every call returns either the
successful analysis dict or the documented default, a call with an empty
production series returns exactly the default, and the default carries
all-zero energy and savings figures with an infinite payback. -/
theorem economic_analysis_total :
    (∀ prod cons cost t power,
      analyze prod cons cost t power = default_economic_results
      ∨ analyzeCore prod cons cost t power
          = .ok (analyze prod cons cost t power))
    ∧ (∀ y cons cost t power,
      analyze ⟨[], y⟩ cons cost t power = default_economic_results)
    ∧ default_economic_results.annual_savings = some 0
    ∧ default_economic_results.roi_years = some ⊤
    ∧ default_economic_results.autoconsumption_kwh = some 0
    ∧ default_economic_results.surplus_kwh = some 0
    ∧ default_economic_results.deficit_kwh = some 0
    ∧ default_economic_results.subsidies_euro = some 0
    ∧ default_economic_results.investment_cost_euro = some 0 := by
  refine ⟨?_, ?_, rfl, rfl, rfl, rfl, rfl, rfl, rfl⟩
  · intro prod cons cost t power
    unfold analyze
    cases h : analyzeCore prod cons cost t power with
    | ok r => right; rfl
    | error e => left; rfl
  · intro y cons cost t power
    unfold analyze analyzeCore
    simp

/-- Helper: indexing a zipWith at a valid position applies the function to
the two entries. -/
theorem zipWith_getD_eq (f : ℚ → ℚ → ℚ) :
    ∀ (p c : List ℚ) (i : ℕ), i < p.length → i < c.length →
      (List.zipWith f p c).getD i 0 = f (p.getD i 0) (c.getD i 0) := by
  intro p
  induction p with
  | nil => intro c i hip _; simp at hip
  | cons a p ih =>
    intro c i hip hic
    cases c with
    | nil => simp at hic
    | cons b c =>
      cases i with
      | zero => rfl
      | succ j =>
        simp only [List.zipWith_cons_cons, List.getD_cons_succ]
        exact ih c j (Nat.lt_of_succ_lt_succ hip) (Nat.lt_of_succ_lt_succ hic)

/-- Helper: shape of a successful alignment: both series truncated to the
common length and clipped to non-negative values, with equal lengths. -/
theorem align_time_series_spec (p c pa ca : List ℚ)
    (h : align_time_series p c = .ok (pa, ca)) :
    pa = (p.take (min p.length c.length)).map (fun x => max x 0)
    ∧ ca = (c.take (min p.length c.length)).map (fun x => max x 0)
    ∧ pa.length = min p.length c.length
    ∧ ca.length = min p.length c.length := by
  unfold align_time_series at h
  split at h
  · exact absurd h (by simp)
  · next hn =>
    simp only [Except.ok.injEq, Prod.mk.injEq] at h
    obtain ⟨h1, h2⟩ := h
    refine ⟨h1.symm, h2.symm, ?_, ?_⟩
    · rw [← h1]; simp [List.length_take]
    · rw [← h2]; simp [List.length_take]

/-- Helper: every entry of an aligned series is non-negative. -/
theorem align_clip_nonneg (src : List ℚ) (n i : ℕ)
    (hi : i < ((src.take n).map (fun x => max x 0)).length) :
    0 ≤ ((src.take n).map (fun x => max x 0)).getD i 0 := by
  rw [List.getD_eq_getElem _ _ hi]
  have hmem := List.getElem_mem hi
  rw [List.mem_map] at hmem
  obtain ⟨y, _, hy⟩ := hmem
  rw [← hy]
  exact le_max_right y 0

/-- C6: energy-balance invariant of the economic analyzer: on the aligned
(hence non-negative) hourly series, at every hour, self-consumption is
min(production, consumption), surplus is max(production - consumption, 0),
deficit is max(consumption - production, 0), self-consumption plus surplus
equals production, and self-consumption plus deficit equals consumption. -/
theorem energy_balance (p c pa ca : List ℚ) (i : ℕ)
    (halign : align_time_series p c = .ok (pa, ca)) (hi : i < pa.length) :
    (autoconsumptionSeries pa ca).getD i 0 = min (pa.getD i 0) (ca.getD i 0)
    ∧ (surplusSeries pa ca).getD i 0 = max (pa.getD i 0 - ca.getD i 0) 0
    ∧ (deficitSeries pa ca).getD i 0 = max (ca.getD i 0 - pa.getD i 0) 0
    ∧ (autoconsumptionSeries pa ca).getD i 0 + (surplusSeries pa ca).getD i 0
        = pa.getD i 0
    ∧ (autoconsumptionSeries pa ca).getD i 0 + (deficitSeries pa ca).getD i 0
        = ca.getD i 0
    ∧ 0 ≤ pa.getD i 0 ∧ 0 ≤ ca.getD i 0 := by
  obtain ⟨hpa, hca, hlpa, hlca⟩ := align_time_series_spec p c pa ca halign
  have hic : i < ca.length := by omega
  have h1 := zipWith_getD_eq min pa ca i hi hic
  have h2 := zipWith_getD_eq (fun a b => max (a - b) 0) pa ca i hi hic
  have h3 := zipWith_getD_eq (fun a b => max (b - a) 0) pa ca i hi hic
  dsimp only at h2 h3
  have hnp : 0 ≤ pa.getD i 0 := by
    rw [hpa]; exact align_clip_nonneg p _ i (by rw [← hpa]; exact hi)
  have hnc : 0 ≤ ca.getD i 0 := by
    rw [hca]; exact align_clip_nonneg c _ i (by rw [← hca]; exact hic)
  refine ⟨h1, h2, h3, ?_, ?_, hnp, hnc⟩
  · unfold autoconsumptionSeries surplusSeries
    rw [h1, h2]
    rcases le_total (pa.getD i 0) (ca.getD i 0) with hle | hle
    · rw [min_eq_left hle, max_eq_right (by linarith)]; ring
    · rw [min_eq_right hle, max_eq_left (by linarith)]; ring
  · unfold autoconsumptionSeries deficitSeries
    rw [h1, h3]
    rcases le_total (pa.getD i 0) (ca.getD i 0) with hle | hle
    · rw [min_eq_left hle, max_eq_left (by linarith)]; ring
    · rw [min_eq_right hle, max_eq_right (by linarith)]; ring

/-- C6 witness: the invariant evaluated on the concrete aligned pair
([2, 1], [1, 5]) at hour 0. -/
theorem energy_balance_witness :
    (autoconsumptionSeries [2, 1] [1, 5]).getD 0 0
        = min (([2, 1] : List ℚ).getD 0 0) (([1, 5] : List ℚ).getD 0 0)
    ∧ (surplusSeries [2, 1] [1, 5]).getD 0 0
        = max (([2, 1] : List ℚ).getD 0 0 - ([1, 5] : List ℚ).getD 0 0) 0
    ∧ (deficitSeries [2, 1] [1, 5]).getD 0 0
        = max (([1, 5] : List ℚ).getD 0 0 - ([2, 1] : List ℚ).getD 0 0) 0
    ∧ (autoconsumptionSeries [2, 1] [1, 5]).getD 0 0
        + (surplusSeries [2, 1] [1, 5]).getD 0 0
        = ([2, 1] : List ℚ).getD 0 0
    ∧ (autoconsumptionSeries [2, 1] [1, 5]).getD 0 0
        + (deficitSeries [2, 1] [1, 5]).getD 0 0
        = ([1, 5] : List ℚ).getD 0 0
    ∧ 0 ≤ ([2, 1] : List ℚ).getD 0 0 ∧ 0 ≤ ([1, 5] : List ℚ).getD 0 0 :=
  energy_balance [2, 1] [1, 5] [2, 1] [1, 5] 0
    (by norm_num [align_time_series]) (by decide)

/-- C10: calling analyze with an explicit investment cost and
system_power_kw equal to None always returns the default all-zero,
infinite-payback result: the subsidy step evaluates system_power_kw or
estimated_power, and estimated_power was only assigned on the
no-investment-cost path, so the reference raises and the top-level handler
substitutes the default. -/
theorem analyze_estimated_power_unbound (prod : EconProdInput)
    (cons : EconConsInput) (c : ℚ) (t : Tariffs) :
    analyze prod cons (some c) t none = default_economic_results := by
  have h : ∃ e, analyzeCore prod cons (some c) t none = .error e := by
    by_cases hlen :
        prod.hourly_production_kw = [] ∨ cons.consumption_kw = []
    · exact ⟨.valueError, by unfold analyzeCore; simp [hlen]⟩
    · cases halign :
          align_time_series prod.hourly_production_kw cons.consumption_kw with
      | error e => exact ⟨e, by unfold analyzeCore; simp [hlen, halign]⟩
      | ok pr =>
        obtain ⟨pa, ca⟩ := pr
        cases hfin :
            calculate_financial_metrics (calculate_energy_flows pa ca) c t with
        | error e =>
            exact ⟨e, by unfold analyzeCore; simp [hlen, halign, hfin]⟩
        | ok fin =>
            exact ⟨.nameError,
              by unfold analyzeCore; simp [hlen, halign, hfin, orTruthy]⟩
  obtain ⟨e, he⟩ := h
  unfold analyze
  rw [he]

/-- C2 (amended): with the cache enabled, a read or deserialize error while
loading the disk-tier entry raises PVCalculationError inside
cached_simulation_memory, and simulate_pv_system catches only the
ValueError miss signal, so the error propagates to the caller as a
pipeline failure instead of being treated as a miss. -/
theorem cache_read_error_propagates (useDb useSimple : Bool)
    (ac : Except Unit (List ℚ)) (db : String → Except Unit (Option DBEntry))
    (cosT sinT : ℚ → ℚ) (st : CacheState) (loc : LocationParams)
    (sys : SystemParams) (w : WeatherInput) (h : String)
    (hmem : lookupMem st.mem h = none) (hdisk : st.disk h = .corrupt) :
    (simulate_pv_system true useDb useSimple ac db cosT sinT st loc sys w h).1
      = .error .pvCalculationError := by
  unfold simulate_pv_system cached_simulation_memory
  rw [hmem, hdisk]
  rfl

/-- C2 witness: the propagation theorem applied to the concrete state with
an empty memory tier and a corrupt parquet under fingerprint k. -/
theorem cache_read_error_propagates_witness :
    lookupMem ([] : List (String × PVDict)) "k" = none
    ∧ (fun _ : String => DiskRead.corrupt) "k" = DiskRead.corrupt
    ∧ (simulate_pv_system true true false (.error ()) (fun _ => .ok none)
        (fun _ => 0) (fun _ => 0) ⟨[], fun _ => .corrupt⟩ ⟨some 45, some 5⟩
        ⟨some 3⟩ .noGhiColumn "k").1 = .error .pvCalculationError :=
  ⟨rfl, rfl,
    cache_read_error_propagates true false (.error ()) (fun _ => .ok none)
      (fun _ => 0) (fun _ => 0) ⟨[], fun _ => .corrupt⟩ ⟨some 45, some 5⟩
      ⟨some 3⟩ .noGhiColumn "k" rfl rfl⟩

/-- C2 counterexample: on a corrupt disk-tier entry the call does not
return a result: it evaluates to the propagated PVCalculationError, so the
read fault is not treated as a cache miss. -/
theorem cache_read_error_cex :
    (simulate_pv_system true true false (.error ()) (fun _ => .ok none)
      (fun _ => 0) (fun _ => 0) ⟨[], fun _ => .corrupt⟩ ⟨some 45, some 5⟩
      ⟨some 3⟩ .noGhiColumn "abc").1 = .error .pvCalculationError := by
  unfold simulate_pv_system cached_simulation_memory
  rfl

/-- Helper: the model_used projection of a conditional between two dicts
carrying the same label. -/
theorem ite_model_used (c : Prop) [Decidable c] (a b : PVDict)
    (l : Option String) (ha : a.model_used = l) (hb : b.model_used = l) :
    (if c then a else b).model_used = l := by
  split <;> assumption

/-- Helper: both gate branches of the simplified tier label the result
Simple Mathematical Model. -/
theorem simple_fallback_label (cosT sinT : ℚ → ℚ) (loc : LocationParams)
    (sys : SystemParams) (w : WeatherInput) :
    (simple_fallback_calculation cosT sinT loc sys w).model_used
      = some "Simple Mathematical Model" := by
  unfold simple_fallback_calculation
  cases w <;> exact ite_model_used _ _ _ _ rfl rfl

/-- Helper: the PVWatts tier delegates to the simplified tier, so it
carries the same label. -/
theorem pvwatts_label (cosT sinT : ℚ → ℚ) (loc : LocationParams)
    (sys : SystemParams) (w : WeatherInput) :
    (pvwatts_calculation cosT sinT loc sys w).model_used
      = some "Simple Mathematical Model" :=
  simple_fallback_label cosT sinT loc sys w

/-- Helper: the advanced tier labels its own successes Advanced and falls
back to the PVWatts label otherwise. -/
theorem original_label (ac : Except Unit (List ℚ)) (cosT sinT : ℚ → ℚ)
    (loc : LocationParams) (sys : SystemParams) (w : WeatherInput) :
    (original_pv_calculation ac cosT sinT loc sys w).model_used
      = some "Advanced"
    ∨ (original_pv_calculation ac cosT sinT loc sys w).model_used
      = some "Simple Mathematical Model" := by
  unfold original_pv_calculation
  cases ac with
  | ok acW =>
    cases hpk : sys.power_kw with
    | some P => left; rfl
    | none => right; exact pvwatts_label cosT sinT loc sys w
  | error u => right; exact pvwatts_label cosT sinT loc sys w

/-- Helper: every freshly computed result carries one of the two labels the
compute step can produce. -/
theorem computeResults_label (useSimple : Bool) (ac : Except Unit (List ℚ))
    (cosT sinT : ℚ → ℚ) (loc : LocationParams) (sys : SystemParams)
    (w : WeatherInput) :
    (computeResults useSimple ac cosT sinT loc sys w).model_used
      = some "Advanced"
    ∨ (computeResults useSimple ac cosT sinT loc sys w).model_used
      = some "Simple Mathematical Model" := by
  unfold computeResults
  cases useSimple with
  | true => right; exact pvwatts_label cosT sinT loc sys w
  | false => simpa using original_label ac cosT sinT loc sys w

/-- C4 (amended): for any request starting from an empty cache, the first
call computes and stores the result; a second call served from the memory
tier returns the identical dict in every field (its cached flag still reads
false); a second call served from the disk tier (memory evicted or process
restarted, parquet persisted) returns only the hourly series and its sum
with cached true, dropping the model label, capacity factor and peak power
fields, so only memory-tier hits satisfy the claimed identity. -/
theorem cache_round_trip (useSimple : Bool) (ac : Except Unit (List ℚ))
    (cosT sinT : ℚ → ℚ) (loc : LocationParams) (sys : SystemParams)
    (w : WeatherInput) (h : String) :
    (simulate_pv_system true true useSimple ac (fun _ => .ok none) cosT sinT
        ⟨[], fun _ => .absent⟩ loc sys w h).1
      = .ok (computeResults useSimple ac cosT sinT loc sys w)
    ∧ (simulate_pv_system true true useSimple ac (fun _ => .ok none) cosT sinT
        (simulate_pv_system true true useSimple ac (fun _ => .ok none) cosT
          sinT ⟨[], fun _ => .absent⟩ loc sys w h).2 loc sys w h).1
      = .ok (computeResults useSimple ac cosT sinT loc sys w)
    ∧ (simulate_pv_system true true useSimple ac (fun _ => .ok none) cosT sinT
        ⟨[], (simulate_pv_system true true useSimple ac (fun _ => .ok none)
          cosT sinT ⟨[], fun _ => .absent⟩ loc sys w h).2.disk⟩ loc sys w h).1
      = .ok (diskReloadDict ((computeResults useSimple ac cosT sinT loc sys
          w).hourly_production_kw.getD []))
    ∧ (diskReloadDict ((computeResults useSimple ac cosT sinT loc sys
        w).hourly_production_kw.getD [])).model_used = none
    ∧ ((computeResults useSimple ac cosT sinT loc sys w).model_used
        = some "Advanced"
      ∨ (computeResults useSimple ac cosT sinT loc sys w).model_used
        = some "Simple Mathematical Model") := by
  have hrun : (simulate_pv_system true true useSimple ac (fun _ => .ok none)
      cosT sinT ⟨[], fun _ => .absent⟩ loc sys w h)
      = (.ok (computeResults useSimple ac cosT sinT loc sys w),
         save_to_cache ⟨[], fun _ => .absent⟩ h
           (computeResults useSimple ac cosT sinT loc sys w)) := rfl
  refine ⟨by rw [hrun], ?_, ?_, rfl,
    computeResults_label useSimple ac cosT sinT loc sys w⟩
  · rw [hrun]
    unfold simulate_pv_system cached_simulation_memory
    simp [save_to_cache, add_to_memory_cache, lookupMem]
  · rw [hrun]
    unfold simulate_pv_system cached_simulation_memory
    simp [save_to_cache, lookupMem]

/-- C4 counterexample: with the disk tier holding exactly the hourly series
that the first computation of the request (simple model, ghi [100, 200],
3 kW) writes, the disk-served second result drops the model label that the
freshly computed result carries, so the two results differ in a field other
than the cache-origin metadata. -/
theorem cache_round_trip_cex :
    (simulate_pv_system true true true (.error ()) (fun _ => .ok none)
      (fun _ => 0) (fun _ => 0)
      ⟨[], fun k => if k = "k" then .ok [969/4000, 969/2000] else .absent⟩
      ⟨some 45, some 5⟩ ⟨some 3⟩ (.withGhi [100, 200]) "k").1
      = .ok (diskReloadDict [969/4000, 969/2000])
    ∧ (diskReloadDict [969/4000, 969/2000]).model_used = none
    ∧ (computeResults true (.error ()) (fun _ => 0) (fun _ => 0)
        ⟨some 45, some 5⟩ ⟨some 3⟩ (.withGhi [100, 200])).hourly_production_kw
      = some [969/4000, 969/2000]
    ∧ (computeResults true (.error ()) (fun _ => 0) (fun _ => 0)
        ⟨some 45, some 5⟩ ⟨some 3⟩ (.withGhi [100, 200])).model_used
      = some "Simple Mathematical Model" := by
  refine ⟨rfl, rfl, ?_, ?_⟩
  · norm_num [computeResults, pvwatts_calculation, simple_fallback_calculation]
  · exact pvwatts_label (fun _ => 0) (fun _ => 0) ⟨some 45, some 5⟩ ⟨some 3⟩
      (.withGhi [100, 200])

/-- C5 (amended): every freshly computed result carries a model-tier label
(Advanced or Simple Mathematical Model; the emergency tier would carry
Emergency Default Values), but results reloaded from the disk or DB cache
tiers carry no model label at all, so cache-served results violate the
claimed invariant. -/
theorem model_tier_label (useSimple : Bool) (ac : Except Unit (List ℚ))
    (cosT sinT : ℚ → ℚ) (loc : LocationParams) (sys : SystemParams)
    (w : WeatherInput) :
    ((computeResults useSimple ac cosT sinT loc sys w).model_used
        = some "Advanced"
      ∨ (computeResults useSimple ac cosT sinT loc sys w).model_used
        = some "Simple Mathematical Model")
    ∧ (∀ data, (diskReloadDict data).model_used = none)
    ∧ (∀ e, (dbReloadDict e).model_used = none)
    ∧ (emergency_default_values loc sys).model_used
        = some "Emergency Default Values" :=
  ⟨computeResults_label useSimple ac cosT sinT loc sys w,
    fun _ => rfl, fun _ => rfl, rfl⟩

/-- C5 counterexample: a result served by simulate_pv_system from the disk
tier carries no model-tier label. -/
theorem model_tier_label_cex :
    (simulate_pv_system true false false (.error ()) (fun _ => .ok none)
      (fun _ => 0) (fun _ => 0) ⟨[], fun _ => .ok [1, 2]⟩ ⟨some 45, none⟩
      ⟨some 3⟩ .noGhiColumn "k").1 = .ok (diskReloadDict [1, 2])
    ∧ (diskReloadDict [1, 2]).model_used = none :=
  ⟨rfl, rfl⟩

/-- Helper: when the computed annual yield is non-zero and at most
8760 * P (capacity factor at most 1), the validation gate of the simplified
tier keeps the computed result unchanged. -/
theorem simple_fallback_keep (cosT sinT : ℚ → ℚ) (loc : LocationParams)
    (ghi : List ℚ) (P : ℚ) (hPpos : 0 < P) (hlen : ghi.length = 8760)
    (h0 : ((ghi.map (fun x => max x 0)).map
      (fun g => min (g * (P * 5) * (1/5 * (19/20) * (17/20)) / 1000) P)).sum ≠ 0)
    (hub : ((ghi.map (fun x => max x 0)).map
      (fun g => min (g * (P * 5) * (1/5 * (19/20) * (17/20)) / 1000) P)).sum
        ≤ 8760 * P) :
    simple_fallback_calculation cosT sinT loc ⟨some P⟩ (.withGhi ghi)
      = { hourly_production_kw := some ((ghi.map (fun x => max x 0)).map
            (fun g => min (g * (P * 5) * (1/5 * (19/20) * (17/20)) / 1000) P))
          annual_yield_kwh := some ((ghi.map (fun x => max x 0)).map
            (fun g => min (g * (P * 5) * (1/5 * (19/20) * (17/20)) / 1000) P)).sum
          capacity_factor := some (((ghi.map (fun x => max x 0)).map
            (fun g => min (g * (P * 5) * (1/5 * (19/20) * (17/20)) / 1000) P)).sum
              / 8760 / P)
          peak_power_kw := some (((ghi.map (fun x => max x 0)).map
            (fun g => min (g * (P * 5) * (1/5 * (19/20) * (17/20)) / 1000) P)).foldr
              max 0)
          cached := some false
          model_used := some "Simple Mathematical Model"
          hourly := none
          annual_yield := none } := by
  simp only [simple_fallback_calculation, Option.getD_some]
  rw [if_neg]
  · rw [if_pos hPpos]
    simp only [List.length_map, hlen]
    norm_num
  · rw [if_pos hPpos]
    push_neg
    refine ⟨h0, ?_⟩
    simp only [List.length_map, hlen]
    rw [div_le_one hPpos]
    push_cast
    rw [div_le_iff (by norm_num : (0:ℚ) < 8760)]
    linarith

/-- Helper: when the computed annual yield is zero or exceeds 8760 * P
(capacity factor above 1), the validation gate discards the computed result
and substitutes the inline latitude-banded default, still labelled Simple
Mathematical Model. -/
theorem simple_fallback_gate (cosT sinT : ℚ → ℚ) (loc : LocationParams)
    (ghi : List ℚ) (P : ℚ) (hPpos : 0 < P) (hlen : ghi.length = 8760)
    (hg : ((ghi.map (fun x => max x 0)).map
      (fun g => min (g * (P * 5) * (1/5 * (19/20) * (17/20)) / 1000) P)).sum = 0
      ∨ 8760 * P < ((ghi.map (fun x => max x 0)).map
      (fun g => min (g * (P * 5) * (1/5 * (19/20) * (17/20)) / 1000) P)).sum) :
    simple_fallback_calculation cosT sinT loc ⟨some P⟩ (.withGhi ghi)
      = { hourly_production_kw := some (List.replicate 8760
            ((if loc.lat.getD 45 > 50 then P * 1000
              else if loc.lat.getD 45 > 45 then P * 1200 else P * 1400) / 8760))
          annual_yield_kwh := some (if loc.lat.getD 45 > 50 then P * 1000
            else if loc.lat.getD 45 > 45 then P * 1200 else P * 1400)
          capacity_factor := some (7/50)
          peak_power_kw := some (P * 4/5)
          cached := some false
          model_used := some "Simple Mathematical Model"
          hourly := none
          annual_yield := none } := by
  simp only [simple_fallback_calculation, Option.getD_some]
  rw [if_pos]
  rw [if_pos hPpos]
  rcases hg with hg | hg
  · exact Or.inl hg
  · refine Or.inr ?_
    simp only [List.length_map, hlen]
    push_cast
    rw [lt_div_iff hPpos, lt_div_iff (by norm_num : (0:ℚ) < 8760)]
    linarith

/-- C3 (amended): the sanity gate of the simplified tier does not test the
[500, 2000] kWh-per-kW band: it tests annual yield equal to zero or
capacity factor above one (annual above 8760 kWh per kW).  On an
8760-sample weather series with positive rated power P, any non-zero
annual yield up to 8760 * P is kept, including in-band values (the half of
the claim that holds) and out-of-band values below 500 kWh per kW (which
the claim says are discarded); when the gate does fire, the substitute is
the inline latitude-banded default of the same tier, labelled Simple
Mathematical Model rather than the Emergency Default Values label of
_emergency_default_values. -/
theorem sanity_gate (cosT sinT : ℚ → ℚ) (loc : LocationParams)
    (ghi : List ℚ) (P : ℚ) (hPpos : 0 < P) (hlen : ghi.length = 8760) :
    (500 * P ≤ ((ghi.map (fun x => max x 0)).map
        (fun g => min (g * (P * 5) * (1/5 * (19/20) * (17/20)) / 1000) P)).sum →
      ((ghi.map (fun x => max x 0)).map
        (fun g => min (g * (P * 5) * (1/5 * (19/20) * (17/20)) / 1000) P)).sum
          ≤ 2000 * P →
      (simple_fallback_calculation cosT sinT loc ⟨some P⟩
          (.withGhi ghi)).annual_yield_kwh
        = some ((ghi.map (fun x => max x 0)).map
            (fun g => min (g * (P * 5) * (1/5 * (19/20) * (17/20)) / 1000) P)).sum)
    ∧ (0 < ((ghi.map (fun x => max x 0)).map
        (fun g => min (g * (P * 5) * (1/5 * (19/20) * (17/20)) / 1000) P)).sum →
      ((ghi.map (fun x => max x 0)).map
        (fun g => min (g * (P * 5) * (1/5 * (19/20) * (17/20)) / 1000) P)).sum
          < 500 * P →
      (simple_fallback_calculation cosT sinT loc ⟨some P⟩
          (.withGhi ghi)).annual_yield_kwh
        = some ((ghi.map (fun x => max x 0)).map
            (fun g => min (g * (P * 5) * (1/5 * (19/20) * (17/20)) / 1000) P)).sum)
    ∧ (((ghi.map (fun x => max x 0)).map
        (fun g => min (g * (P * 5) * (1/5 * (19/20) * (17/20)) / 1000) P)).sum = 0 →
      (simple_fallback_calculation cosT sinT loc ⟨some P⟩
          (.withGhi ghi)).annual_yield_kwh
        = some (if loc.lat.getD 45 > 50 then P * 1000
            else if loc.lat.getD 45 > 45 then P * 1200 else P * 1400)
      ∧ (simple_fallback_calculation cosT sinT loc ⟨some P⟩
          (.withGhi ghi)).model_used = some "Simple Mathematical Model")
    ∧ (emergency_default_values loc ⟨some P⟩).model_used
        = some "Emergency Default Values" := by
  refine ⟨?_, ?_, ?_, rfl⟩
  · intro hlb hub
    rw [simple_fallback_keep cosT sinT loc ghi P hPpos hlen
      (by intro hz; rw [hz] at hlb; nlinarith) (by nlinarith)]
  · intro hpos hub
    rw [simple_fallback_keep cosT sinT loc ghi P hPpos hlen
      (ne_of_gt hpos) (by nlinarith)]
  · intro hz
    rw [simple_fallback_gate cosT sinT loc ghi P hPpos hlen (Or.inl hz)]
    exact ⟨rfl, rfl⟩

/-- C3 witness: the gate characterization applied to a constant
100 W per square metre year at 3 kW in Paris, whose annual yield
212211/100 kWh lies inside the [500, 2000] kWh-per-kW band and is kept. -/
theorem sanity_gate_witness :
    (simple_fallback_calculation (fun _ => 0) (fun _ => 0)
      ⟨some (4885/100), some (235/100)⟩ ⟨some 3⟩
      (.withGhi (List.replicate 8760 100))).annual_yield_kwh
      = some (212211/100) := by
  have hsum : (((List.replicate 8760 (100:ℚ)).map (fun x => max x 0)).map
      (fun g => min (g * ((3:ℚ) * 5) * (1/5 * (19/20) * (17/20)) / 1000) 3)).sum
      = 212211/100 := by
    simp only [List.map_replicate, List.sum_replicate]
    norm_num
  have h := (sanity_gate (fun _ => 0) (fun _ => 0)
    ⟨some (4885/100), some (235/100)⟩ (List.replicate 8760 100) 3
    (by norm_num) (by rw [List.length_replicate])).1
  rw [hsum] at h
  exact h (by norm_num) (by norm_num)

/-- C3 counterexample: a constant 14 W per square metre year at 3 kW in
Paris computes an annual yield of 1485477/5000 kWh, about 99 kWh per
installed kW, far below the [500, 2000] band; the claim says this result is
discarded for the latitude-banded default (3600 kWh at this latitude), but
the code keeps it. -/
theorem sanity_gate_cex :
    (simple_fallback_calculation (fun _ => 0) (fun _ => 0)
      ⟨some (4885/100), some (235/100)⟩ ⟨some 3⟩
      (.withGhi (List.replicate 8760 14))).annual_yield_kwh
      = some (1485477/5000)
    ∧ (1485477/5000 : ℚ) < 500 * 3
    ∧ (0:ℚ) < 1485477/5000
    ∧ (simple_fallback_calculation (fun _ => 0) (fun _ => 0)
        ⟨some (4885/100), some (235/100)⟩ ⟨some 3⟩
        (.withGhi (List.replicate 8760 14))).model_used
      = some "Simple Mathematical Model"
    ∧ (1485477/5000 : ℚ) ≠ 3 * 1200 := by
  have hsum : (((List.replicate 8760 (14:ℚ)).map (fun x => max x 0)).map
      (fun g => min (g * ((3:ℚ) * 5) * (1/5 * (19/20) * (17/20)) / 1000) 3)).sum
      = 1485477/5000 := by
    simp only [List.map_replicate, List.sum_replicate]
    norm_num
  refine ⟨?_, by norm_num, by norm_num, ?_, by norm_num⟩
  · rw [simple_fallback_keep (fun _ => 0) (fun _ => 0)
      ⟨some (4885/100), some (235/100)⟩ (List.replicate 8760 14) 3
      (by norm_num) (by rw [List.length_replicate]) (by rw [hsum]; norm_num)
      (by rw [hsum]; norm_num), hsum]
  · exact simple_fallback_label (fun _ => 0) (fun _ => 0)
      ⟨some (4885/100), some (235/100)⟩ ⟨some 3⟩
      (.withGhi (List.replicate 8760 14))

/-- Helper: the daily factor of the base profile lies in [2/5, 6/5]. -/
theorem dailyFactorBase_bounds (h : ℕ) :
    2/5 ≤ dailyFactorBase h ∧ dailyFactorBase h ≤ 6/5 := by
  unfold dailyFactorBase
  split_ifs <;> norm_num

/-- Helper: with cosine values in [-1, 1] the seasonal factor lies in
[7/10, 23/10]. -/
theorem seasonalFactorBase_bounds (cosT : ℚ → ℚ)
    (hc : ∀ q, -1 ≤ cosT q ∧ cosT q ≤ 1) (d : ℕ) :
    7/10 ≤ seasonalFactorBase cosT d ∧ seasonalFactorBase cosT d ≤ 23/10 := by
  obtain ⟨h1, h2⟩ := hc ((((d : ℤ) : ℚ) - 15) / 365)
  unfold seasonalFactorBase
  constructor <;> linarith

/-- Helper: each unnormalized hourly factor lies in [7/25, 69/25]. -/
theorem baseHourlyFactor_bounds (cosT : ℚ → ℚ)
    (hc : ∀ q, -1 ≤ cosT q ∧ cosT q ≤ 1) (h : ℕ) :
    7/25 ≤ baseHourlyFactor cosT h ∧ baseHourlyFactor cosT h ≤ 69/25 := by
  obtain ⟨hs1, hs2⟩ := seasonalFactorBase_bounds cosT hc (dayOfYearIdx h)
  obtain ⟨hd1, hd2⟩ := dailyFactorBase_bounds h
  unfold baseHourlyFactor
  constructor <;> nlinarith

/-- Helper: the unnormalized profile sum is at least 8760 * 7/25. -/
theorem baseFactorSum_lb (cosT : ℚ → ℚ)
    (hc : ∀ q, -1 ≤ cosT q ∧ cosT q ≤ 1) :
    12264/5 ≤ baseFactorSum cosT := by
  unfold baseFactorSum
  calc (12264/5 : ℚ) = (Finset.range 8760).card • (7/25 : ℚ) := by
        rw [Finset.card_range, nsmul_eq_mul]; norm_num
  _ ≤ ∑ h ∈ Finset.range 8760, baseHourlyFactor cosT h :=
        Finset.card_nsmul_le_sum _ _ _
          (fun i _ => (baseHourlyFactor_bounds cosT hc i).1)

/-- Helper: the class-A, 50 square-metre, single-occupant annual base
consumption is exactly 800 kWh. -/
theorem annualBaseKwh_A_1_50 : annualBaseKwh "A" 1 50 = 800 := by
  norm_num [annualBaseKwh, dpeCoeff]

/-- Helper: each hour of the normalized class-A base profile is positive
and at most 460/511 kW. -/
theorem base_consumption_pos_bounds (cosT : ℚ → ℚ)
    (hc : ∀ q, -1 ≤ cosT q ∧ cosT q ≤ 1) (h : ℕ) :
    0 < calculate_base_consumption cosT "A" 1 50 h
    ∧ calculate_base_consumption cosT "A" 1 50 h ≤ 460/511 := by
  obtain ⟨hf1, hf2⟩ := baseHourlyFactor_bounds cosT hc h
  have hS := baseFactorSum_lb cosT hc
  have hSpos : 0 < baseFactorSum cosT := by linarith
  unfold calculate_base_consumption
  rw [annualBaseKwh_A_1_50]
  constructor
  · have : 0 < baseHourlyFactor cosT h / baseFactorSum cosT :=
      div_pos (by linarith) hSpos
    nlinarith
  · have hdiv : baseHourlyFactor cosT h / baseFactorSum cosT
        ≤ (69/25) / (12264/5) :=
      div_le_div (by norm_num) hf2 (by norm_num) hS
    calc baseHourlyFactor cosT h / baseFactorSum cosT * 800
        ≤ (69/25) / (12264/5) * 800 := by nlinarith
    _ = 460/511 := by norm_num

/-- Helper: the normalized class-A base profile sums to exactly its
800 kWh annual target. -/
theorem base_sum_eq (cosT : ℚ → ℚ)
    (hc : ∀ q, -1 ≤ cosT q ∧ cosT q ≤ 1) :
    ∑ h ∈ Finset.range 8760, calculate_base_consumption cosT "A" 1 50 h
      = 800 := by
  have hS := baseFactorSum_lb cosT hc
  have hSne : baseFactorSum cosT ≠ 0 := by intro h0; rw [h0] at hS; norm_num at hS
  unfold calculate_base_consumption
  rw [annualBaseKwh_A_1_50]
  rw [← Finset.sum_mul, ← Finset.sum_div]
  rw [show ∑ h ∈ Finset.range 8760, baseHourlyFactor cosT h = baseFactorSum cosT
    from rfl]
  rw [div_self hSne]
  norm_num

/-- Helper: with unit noise and one occupant, the pattern step on the
class-A baseline-plus-zero-appliances series multiplies peak hours by 1.2
and leaves the other hours unchanged (no clipping occurs). -/
theorem final_eval (cosT : ℚ → ℚ)
    (hc : ∀ q, -1 ≤ cosT q ∧ cosT q ≤ 1) (simOne : Appliance → ℕ → ℚ)
    (h : ℕ) :
    apply_consumption_patterns (fun _ => 1) 1
      (fun k => calculate_base_consumption cosT "A" 1 50 k
        + calculate_appliances_consumption simOne [] k) h
      = if hourOfIdx h ∈ peakHours
        then calculate_base_consumption cosT "A" 1 50 h * (6/5)
        else calculate_base_consumption cosT "A" 1 50 h := by
  obtain ⟨hp0, hpu⟩ := base_consumption_pos_bounds cosT hc h
  unfold apply_consumption_patterns calculate_appliances_consumption
  simp only [List.map_nil, List.sum_nil, add_zero, mul_one]
  have hcap : (6 : ℚ) + ((1:ℕ) : ℚ) * 3 = 9 := by norm_num
  rw [hcap]
  split_ifs with hpk
  · rw [min_eq_left (by nlinarith), max_eq_left (by nlinarith)]
  · rw [min_eq_left (by nlinarith), max_eq_left (by nlinarith)]

/-- Helper: with unit noise the zero-appliance annual total strictly
exceeds the 800 kWh baseline target, because the peak-hour multiplier adds
a strictly positive contribution and no value reaches the clip ceiling. -/
theorem consumption_annual_gt (cosT : ℚ → ℚ) (simOne : Appliance → ℕ → ℚ)
    (hc : ∀ q, -1 ≤ cosT q ∧ cosT q ≤ 1) :
    800 < (simulate_consumption cosT (fun _ => 1) simOne []
      "A" 1 50).annual_consumption_kwh := by
  have hann : (simulate_consumption cosT (fun _ => 1) simOne []
      "A" 1 50).annual_consumption_kwh
      = ∑ h ∈ Finset.range 8760, (if hourOfIdx h ∈ peakHours
          then calculate_base_consumption cosT "A" 1 50 h * (6/5)
          else calculate_base_consumption cosT "A" 1 50 h) := by
    unfold simulate_consumption
    dsimp only
    exact Finset.sum_congr rfl (fun h _ => final_eval cosT hc simOne h)
  rw [hann, ← base_sum_eq cosT hc]
  apply Finset.sum_lt_sum
  · intro i _
    split_ifs with hpk
    · nlinarith [(base_consumption_pos_bounds cosT hc i).1]
    · exact le_refl _
  · refine ⟨7, Finset.mem_range.2 (by norm_num), ?_⟩
    rw [if_pos (by decide : hourOfIdx 7 ∈ peakHours)]
    nlinarith [(base_consumption_pos_bounds cosT hc 7).1]

/-- C9 (amended): with zero selected appliances, class A, 50 square
metres and one occupant, the appliance-attributable total is 0 and the
base_consumption_kwh field equals the baseline-only computation
coefficient * area * occupancy = 800 kWh; but the returned annual total is
the sum of the pattern-adjusted series (noise, peak-hour multiplier,
clipping), which with unit noise strictly exceeds 800 kWh rather than
equalling the baseline-only computation. -/
theorem consumption_zero_appliances (cosT : ℚ → ℚ) (noise : ℕ → ℚ)
    (simOne : Appliance → ℕ → ℚ)
    (hc : ∀ q, -1 ≤ cosT q ∧ cosT q ≤ 1) :
    (simulate_consumption cosT noise simOne []
        "A" 1 50).appliances_consumption_kwh = 0
    ∧ annualBaseKwh "A" 1 50 = 800
    ∧ (simulate_consumption cosT noise simOne []
        "A" 1 50).base_consumption_kwh = 800
    ∧ 800 < (simulate_consumption cosT (fun _ => 1) simOne []
        "A" 1 50).annual_consumption_kwh := by
  refine ⟨?_, annualBaseKwh_A_1_50, ?_, consumption_annual_gt cosT simOne hc⟩
  · unfold simulate_consumption
    dsimp only
    simp [calculate_appliances_consumption]
  · unfold simulate_consumption
    dsimp only
    exact base_sum_eq cosT hc

/-- C9 witness: the theorem applied at the concrete abstraction cos = 0,
noise = 1, with every hypothesis discharged. -/
theorem consumption_zero_appliances_witness :
    (∀ q : ℚ, -1 ≤ (fun _ : ℚ => (0:ℚ)) q ∧ (fun _ : ℚ => (0:ℚ)) q ≤ 1)
    ∧ ((simulate_consumption (fun _ => 0) (fun _ => 1) (fun _ _ => 0) []
          "A" 1 50).appliances_consumption_kwh = 0
      ∧ annualBaseKwh "A" 1 50 = 800
      ∧ (simulate_consumption (fun _ => 0) (fun _ => 1) (fun _ _ => 0) []
          "A" 1 50).base_consumption_kwh = 800
      ∧ 800 < (simulate_consumption (fun _ => 0) (fun _ => 1) (fun _ _ => 0)
          [] "A" 1 50).annual_consumption_kwh) :=
  ⟨fun q => by norm_num,
    consumption_zero_appliances (fun _ => 0) (fun _ => 1) (fun _ _ => 0)
      (fun q => by norm_num)⟩

/-- C9 counterexample: with zero appliances the returned annual total does
not equal the baseline-only computation annualBaseKwh (800 kWh): the
pattern step pushes it strictly above. -/
theorem consumption_zero_appliances_cex :
    (simulate_consumption (fun _ => 0) (fun _ => 1) (fun _ _ => 0) []
        "A" 1 50).annual_consumption_kwh ≠ annualBaseKwh "A" 1 50 := by
  rw [annualBaseKwh_A_1_50]
  exact ne_of_gt (consumption_annual_gt (fun _ => 0) (fun _ _ => 0)
    (fun q => by norm_num))

end SimuSolaire
